import Mathlib

/-!
Shallow embedding of the BookReader repository's state and operations.

The library store (`src/stores/libraryStore.ts`) is a record store over
books, collections, bookmarks and highlights; every action is a pure state
transformer once the ambient clock (`Date.now()`) and generated uuids are
passed in explicitly.  The reader store (`src/stores/readerStore.ts`,
recovered as `unnamed/part_001`) holds per-session navigation and timing
state.  The EPUB render surface (`unnamed/part_013`) contributes the
relocation handler, location regeneration and percentage navigation.
JavaScript numbers are embedded as `ℚ` (arbitrary numeric payloads),
`ℤ` (timestamps in milliseconds, page counters) or `ℕ` (counts);
`Math.round` is floor of `x + 1/2`, `Math.floor` on an integer quotient is
`Int.fdiv`, and JS falsiness of `0`/`null`/`""` is modelled explicitly
where the source relies on it.
-/

namespace BookReader

/-- `ReadingStatus` from `src/types`: `'reading' | 'finished' | 'want-to-read'`. -/
inductive ReadingStatus where
  | reading
  | finished
  | wantToRead
deriving DecidableEq, Repr

/-- `FileType` from `src/types`: `'epub' | 'pdf'`. -/
inductive FileType where
  | epub
  | pdf
deriving DecidableEq, Repr

/-- `HighlightColor` from `src/types`. -/
inductive HighlightColor where
  | yellow
  | green
  | blue
  | pink
  | purple
deriving DecidableEq, Repr

/-- `Book` record from `src/types`. -/
structure Book where
  id : String
  title : String
  author : String
  description : Option String
  coverPath : Option String
  filePath : String
  fileType : FileType
  dateAdded : ℤ
  lastOpened : Option ℤ
  currentLocation : Option String
  totalLocations : Option ℤ
  progress : ℚ
  readingTime : ℚ
  status : ReadingStatus
  collectionIds : List String
  tags : List String
deriving DecidableEq, Repr

/-- `Bookmark` record from `src/types`. -/
structure Bookmark where
  id : String
  bookId : String
  location : String
  dateCreated : ℤ
  note : Option String
  displayText : Option String
deriving DecidableEq, Repr

/-- `Highlight` record from `src/types`. -/
structure Highlight where
  id : String
  bookId : String
  text : String
  startLocation : String
  endLocation : String
  color : HighlightColor
  note : Option String
  dateCreated : ℤ
deriving DecidableEq, Repr

/-- `Collection` record from `src/types`. -/
structure Collection where
  id : String
  name : String
  bookIds : List String
  dateCreated : ℤ
  sortOrder : ℤ
deriving DecidableEq, Repr

/-- The library store's state slice (`books`, `collections`, `bookmarks`,
`highlights` in `src/stores/libraryStore.ts`). -/
structure LibraryState where
  books : List Book
  collections : List Collection
  bookmarks : List Bookmark
  highlights : List Highlight
deriving DecidableEq, Repr

/-- `removeBook` from `src/stores/libraryStore.ts`: drops the book, its
bookmarks and highlights, and strips its id from every collection. -/
def removeBook (id : String) (s : LibraryState) : LibraryState :=
  { s with
    books := s.books.filter (fun book => book.id != id)
    bookmarks := s.bookmarks.filter (fun b => b.bookId != id)
    highlights := s.highlights.filter (fun h => h.bookId != id)
    collections := s.collections.map
      (fun collection =>
        { collection with bookIds := collection.bookIds.filter (fun bookId => bookId != id) }) }

/-- `updateReadingProgress` from `src/stores/libraryStore.ts`; `now` stands
for the `Date.now()` call producing `lastOpened`. -/
def updateReadingProgress (id location : String) (progress : ℚ) (now : ℤ)
    (s : LibraryState) : LibraryState :=
  { s with
    books := s.books.map (fun book =>
      if book.id = id then
        { book with
          currentLocation := some location
          progress := progress
          lastOpened := some now
          status := if book.status = ReadingStatus.wantToRead then ReadingStatus.reading
                    else book.status }
      else book) }

/-- `updateReadingTime` from `src/stores/libraryStore.ts`. -/
def updateReadingTime (id : String) (seconds : ℚ) (s : LibraryState) : LibraryState :=
  { s with
    books := s.books.map (fun book =>
      if book.id = id then { book with readingTime := book.readingTime + seconds }
      else book) }

/-- The non-generated fields of a highlight
(`Omit<Highlight, 'id' | 'dateCreated'>` in `addHighlight`'s signature). -/
structure HighlightData where
  bookId : String
  text : String
  startLocation : String
  endLocation : String
  color : HighlightColor
  note : Option String
deriving DecidableEq, Repr

/-- The filter predicate `addHighlight` uses to collect
`existingHighlights`: same book and same exact start location as the
incoming highlight data. -/
def sameStartAs (hd : HighlightData) (h : Highlight) : Bool :=
  h.bookId == hd.bookId && h.startLocation == hd.startLocation

/-- `addHighlight` from `src/stores/libraryStore.ts`: removes every existing
highlight at the same `(bookId, startLocation)` and appends the freshly
built record; `newId` stands for `uuidv4()`, `now` for `Date.now()`. -/
def addHighlight (hd : HighlightData) (newId : String) (now : ℤ)
    (s : LibraryState) : LibraryState × Highlight :=
  let existingHighlights := s.highlights.filter (sameStartAs hd)
  let highlight : Highlight :=
    { id := newId, bookId := hd.bookId, text := hd.text,
      startLocation := hd.startLocation, endLocation := hd.endLocation,
      color := hd.color, note := hd.note, dateCreated := now }
  ({ s with
     highlights :=
       (s.highlights.filter
         (fun h => !(existingHighlights.any (fun e => e.id == h.id)))) ++ [highlight] },
   highlight)

/-- A `Partial<Highlight>` as accepted by `updateHighlight`: a present field
overrides, an absent field keeps the old value (object spread). -/
structure HighlightUpdates where
  id : Option String := none
  bookId : Option String := none
  text : Option String := none
  startLocation : Option String := none
  endLocation : Option String := none
  color : Option HighlightColor := none
  note : Option (Option String) := none
  dateCreated : Option ℤ := none
deriving DecidableEq, Repr

/-- The spread `{ ...h, ...updates }` for a highlight. -/
def applyHighlightUpdates (u : HighlightUpdates) (h : Highlight) : Highlight :=
  { id := u.id.getD h.id
    bookId := u.bookId.getD h.bookId
    text := u.text.getD h.text
    startLocation := u.startLocation.getD h.startLocation
    endLocation := u.endLocation.getD h.endLocation
    color := u.color.getD h.color
    note := u.note.getD h.note
    dateCreated := u.dateCreated.getD h.dateCreated }

/-- `updateHighlight` from `src/stores/libraryStore.ts`. -/
def updateHighlight (id : String) (u : HighlightUpdates) (s : LibraryState) : LibraryState :=
  { s with
    highlights := s.highlights.map (fun h => if h.id = id then applyHighlightUpdates u h else h) }

/-- `removeHighlight` from `src/stores/libraryStore.ts`. -/
def removeHighlight (id : String) (s : LibraryState) : LibraryState :=
  { s with highlights := s.highlights.filter (fun h => h.id != id) }

/-- `clearAllHighlights` from `src/stores/libraryStore.ts`. -/
def clearAllHighlights (bookId : String) (s : LibraryState) : LibraryState :=
  { s with highlights := s.highlights.filter (fun h => h.bookId != bookId) }

/-- The highlight-store invariant of spec §3: at most one highlight per
exact `(bookId, startLocation)` pair — no two positions in the list share
that pair. -/
def highlightInv (hs : List Highlight) : Prop :=
  hs.Pairwise (fun h1 h2 => ¬(h1.bookId = h2.bookId ∧ h1.startLocation = h2.startLocation))

instance (hs : List Highlight) : Decidable (highlightInv hs) := by
  unfold highlightInv
  exact List.instDecidablePairwise hs

/-- `SearchResult` from the reader store (`unnamed/part_001`). -/
structure SearchResult where
  cfi : String
  excerpt : String
  chapter : Option String
deriving DecidableEq, Repr

/-- The reader store's state (`unnamed/part_001`): current book, navigation
state, UI flags and the session-start timestamp (milliseconds). -/
structure ReaderState where
  currentBook : Option Book
  isLoading : Bool
  error : Option String
  currentLocation : Option String
  totalLocations : ℤ
  currentPage : ℤ
  totalPages : ℤ
  currentChapter : Option String
  progress : ℚ
  isUIVisible : Bool
  isTocOpen : Bool
  isSettingsOpen : Bool
  isBookmarksOpen : Bool
  isSearchOpen : Bool
  searchQuery : String
  searchResults : List SearchResult
  sessionStartTime : Option ℤ
deriving DecidableEq, Repr

/-- `initialState` from the reader store (`unnamed/part_001`). -/
def initialReaderState : ReaderState :=
  { currentBook := none
    isLoading := false
    error := none
    currentLocation := none
    totalLocations := 0
    currentPage := 0
    totalPages := 0
    currentChapter := none
    progress := 0
    isUIVisible := true
    isTocOpen := false
    isSettingsOpen := false
    isBookmarksOpen := false
    isSearchOpen := false
    searchQuery := ""
    searchResults := []
    sessionStartTime := none }

/-- `startSession` from the reader store: `set({ sessionStartTime: Date.now() })`;
`now` stands for `Date.now()`. -/
def startSession (now : ℤ) (s : ReaderState) : ReaderState :=
  { s with sessionStartTime := some now }

/-- `endSession` from the reader store (`unnamed/part_001`, lines 117–123).
`if (!sessionStartTime) return 0` is a JS falsiness test, so both a missing
timestamp and the literal timestamp `0` short-circuit to duration `0`
without clearing the field; otherwise the duration is
`Math.floor((Date.now() - sessionStartTime) / 1000)` — floor division on
integers — and `sessionStartTime` is reset to `null`. -/
def endSession (now : ℤ) (s : ReaderState) : ReaderState × ℤ :=
  match s.sessionStartTime with
  | none => (s, 0)
  | some t =>
    if t = 0 then (s, 0)
    else ({ s with sessionStartTime := none }, Int.fdiv (now - t) 1000)

/-- The unmount cleanup effect of `ReaderView.tsx` (lines 118–126): run
`endSession`, add the duration to the book's reading time when the route's
`bookId` is truthy (a nonempty string) and the duration is positive, then
`reset()` the reader store to its initial state. -/
def readerViewCleanup (bookId : Option String) (now : ℤ)
    (rs : ReaderState) (ls : LibraryState) : ReaderState × LibraryState :=
  let ended := endSession now rs
  let ls' :=
    match bookId with
    | some bid =>
      if bid ≠ "" ∧ 0 < ended.2 then updateReadingTime bid (ended.2 : ℚ) ls else ls
    | none => ls
  (initialReaderState, ls')

/-- JS `Math.round`: round half toward positive infinity. -/
def jsRound (q : ℚ) : ℤ := ⌊q + 1 / 2⌋

/-- JS `x || d` on an optional number: `0` and `undefined` are both falsy. -/
def jsOrInt (x : Option ℤ) (d : ℤ) : ℤ :=
  match x with
  | some v => if v = 0 then d else v
  | none => d

/-- The `location.start` payload a relocation event carries into
`handleLocationChange` (`unnamed/part_013`): the start CFI plus the
optional native `displayed.page` / `displayed.total` metadata. -/
structure RelocLocation where
  startCfi : String
  displayedPage : Option ℤ
  displayedTotal : Option ℤ
deriving DecidableEq, Repr

/-- The observable effect of one `handleLocationChange` run: the arguments
of the `updateLocation` call on the reader store, the `setTotalLocations`
call when the index reported a positive length, the
`updateReadingProgress` write to the library store, and the chapter label
set (when the TOC lookup succeeds). -/
structure RelocUpdate where
  locCfi : String
  locPage : ℤ
  locTotalPages : ℤ
  locProgress : ℤ
  setTotalLocations : Option ℕ
  bookProgressWrite : String × String × ℤ
  chapterSet : Option String
deriving DecidableEq, Repr

/-- `handleLocationChange` from `unnamed/part_013` (lines 399–438), after
its liveness guard.  `lengthResult` is the outcome of
`locations.length()` and `pctResult` the outcome of
`locations.percentageFromCfi(cfi)` (which may throw, or yield a missing
value that `|| 0` coalesces); both calls sit in one `try` block, and
`totalLocs` is assigned before the percentage lookup, so a throwing lookup
still leaves the length visible to the later `setTotalLocations` call.
Page and total default to the native `displayed` metadata (`|| 1`),
progress defaults to `0`.  The TOC/spine chapter lookup is abstracted as
`chapterOf`. -/
def handleLocationChange (lengthResult : Except Unit ℕ)
    (pctResult : Except Unit (Option ℚ)) (loc : RelocLocation) (bookId : String)
    (chapterOf : String → Option String) : RelocUpdate :=
  let cfi := loc.startCfi
  let defaultPage := jsOrInt loc.displayedPage 1
  let defaultTotal := jsOrInt loc.displayedTotal 1
  match lengthResult with
  | Except.error _ =>
    { locCfi := cfi, locPage := defaultPage, locTotalPages := defaultTotal,
      locProgress := 0, setTotalLocations := none,
      bookProgressWrite := (bookId, cfi, 0), chapterSet := chapterOf cfi }
  | Except.ok totalLocs =>
    if 0 < totalLocs then
      match pctResult with
      | Except.error _ =>
        { locCfi := cfi, locPage := defaultPage, locTotalPages := defaultTotal,
          locProgress := 0, setTotalLocations := some totalLocs,
          bookProgressWrite := (bookId, cfi, 0), chapterSet := chapterOf cfi }
      | Except.ok pctOpt =>
        let percentage := pctOpt.getD 0
        let progress := jsRound (percentage * 100)
        let currentPage := max 1 (jsRound (percentage * totalLocs))
        { locCfi := cfi, locPage := currentPage, locTotalPages := totalLocs,
          locProgress := progress, setTotalLocations := some totalLocs,
          bookProgressWrite := (bookId, cfi, progress), chapterSet := chapterOf cfi }
    else
      { locCfi := cfi, locPage := defaultPage, locTotalPages := defaultTotal,
        locProgress := 0, setTotalLocations := none,
        bookProgressWrite := (bookId, cfi, 0), chapterSet := chapterOf cfi }

/-- The navigation a render-surface operation requests of the rendition. -/
inductive NavAction where
  | idle
  | display (target : String)
deriving DecidableEq, Repr

/-- `goToPercentage` from `unnamed/part_013` (lines 349–359): when the epub
and rendition refs are live, clamp the incoming percentage to `[0, 100]`,
normalise to `[0, 1]`, convert through
`locations.cfiFromPercentage` and display the resulting CFI. -/
def goToPercentage (hasRefs : Bool) (cfiFromPercentage : ℚ → String)
    (percentage : ℚ) : NavAction :=
  if hasRefs then
    NavAction.display (cfiFromPercentage (max 0 (min percentage 100) / 100))
  else NavAction.idle

/-- `ThemeColors` from `src/constants/theme.ts`. -/
structure ThemeColors where
  background : String
  text : String
  link : String
deriving DecidableEq, Repr

/-- The `THEME_COLORS` lookup table from `src/constants/theme.ts`. -/
def THEME_COLORS (theme : String) : Option ThemeColors :=
  if theme = "light" then some ⟨"#ffffff", "#1d1d1f", "#007aff"⟩
  else if theme = "sepia" then some ⟨"#f8f3e8", "#433422", "#b5651d"⟩
  else if theme = "dark" then some ⟨"#1c1c1e", "#f5f5f7", "#0a84ff"⟩
  else if theme = "black" then some ⟨"#000000", "#ffffff", "#0a84ff"⟩
  else none

/-- `getThemeColors` from `src/constants/theme.ts`:
`THEME_COLORS[theme] || THEME_COLORS.light`. -/
def getThemeColors (theme : String) : ThemeColors :=
  (THEME_COLORS theme).getD ⟨"#ffffff", "#1d1d1f", "#007aff"⟩

/-- The private `getThemeColors` switch in
`src/components/reader/EpubRenderer.tsx` (lines 218–245); its `default`
branch returns the light triple. -/
def epubGetThemeColors (theme : String) : ThemeColors :=
  if theme = "sepia" then ⟨"#f8f3e8", "#433422", "#b5651d"⟩
  else if theme = "dark" then ⟨"#1c1c1e", "#f5f5f7", "#0a84ff"⟩
  else if theme = "black" then ⟨"#000000", "#ffffff", "#0a84ff"⟩
  else ⟨"#ffffff", "#1d1d1f", "#007aff"⟩

/-! ### Concrete fixtures used by the witness theorems -/

/-- A freshly imported book (the shape `addBook` produces). -/
def sampleBook : Book :=
  { id := "b1", title := "Walden", author := "Thoreau", description := none,
    coverPath := none, filePath := "/books/walden.epub", fileType := FileType.epub,
    dateAdded := 1, lastOpened := none, currentLocation := none,
    totalLocations := none, progress := 0, readingTime := 0,
    status := ReadingStatus.wantToRead, collectionIds := ["c1"], tags := [] }

/-- A second, finished book. -/
def sampleBook2 : Book :=
  { sampleBook with id := "b2", title := "Emma", author := "Austen",
                    status := ReadingStatus.finished, progress := 100 }

/-- A collection holding both sample books. -/
def sampleCollection : Collection :=
  { id := "c1", name := "Classics", bookIds := ["b1", "b2"], dateCreated := 0,
    sortOrder := 0 }

/-- A bookmark on each sample book. -/
def sampleBookmark : Bookmark :=
  { id := "m1", bookId := "b1", location := "cfiM1", dateCreated := 2,
    note := none, displayText := none }

/-- A bookmark on the second sample book. -/
def sampleBookmark2 : Bookmark :=
  { id := "m2", bookId := "b2", location := "cfiM2", dateCreated := 3,
    note := none, displayText := none }

/-- A highlight at start address `locA` of book `b1`. -/
def sampleHighlightA : Highlight :=
  { id := "h1", bookId := "b1", text := "pond", startLocation := "locA",
    endLocation := "locA", color := HighlightColor.yellow, note := none,
    dateCreated := 4 }

/-- A highlight at start address `locB` of book `b1`. -/
def sampleHighlightB : Highlight :=
  { id := "h2", bookId := "b1", text := "woods", startLocation := "locB",
    endLocation := "locB", color := HighlightColor.green, note := none,
    dateCreated := 5 }

/-- A small library store state. -/
def sampleLibrary : LibraryState :=
  { books := [sampleBook, sampleBook2], collections := [sampleCollection],
    bookmarks := [sampleBookmark, sampleBookmark2],
    highlights := [sampleHighlightA, sampleHighlightB] }

/-- A trivial TOC chapter lookup for concrete runs. -/
def noChapter : String → Option String := fun _ => none

/-- Incoming highlight data targeting the already-occupied start address
`locA` of book `b1`, with a different color. -/
def sampleHighlightData : HighlightData :=
  { bookId := "b1", text := "replacement", startLocation := "locA",
    endLocation := "locA2", color := HighlightColor.pink, note := none }

/-- The empty `Partial<Highlight>`: no field present. -/
def emptyHighlightUpdates : HighlightUpdates := {}

/-- A concrete relocation payload with no native page metadata. -/
def sampleReloc : RelocLocation :=
  { startCfi := "epubcfi(/6/4!/4/2)", displayedPage := none, displayedTotal := none }

/-! ### Claim theorems -/

/-- C4: `updateReadingProgress` flips a `want-to-read` book to `reading`
and leaves a `reading` or `finished` book's status unchanged — status never
auto-regresses on a progress update. -/
theorem C4_progress_status_transition (id location : String) (progress : ℚ) (now : ℤ)
    (s : LibraryState) (i : ℕ) (b : Book) (hb : s.books[i]? = some b)
    (hid : b.id = id) :
    ((updateReadingProgress id location progress now s).books[i]?).map Book.status
      = some (if b.status = ReadingStatus.wantToRead then ReadingStatus.reading
              else b.status) := by
  simp [updateReadingProgress, List.getElem?_map, hb, hid]

/-- Witness for C4: the want-to-read `sampleBook` becomes `reading` after a
progress update; the `if` also evaluates the never-regress branch shape. -/
theorem C4_progress_status_transition_witness :
    sampleLibrary.books[0]? = some sampleBook ∧ sampleBook.id = "b1" ∧
    ((updateReadingProgress "b1" "cfiX" 42 99 sampleLibrary).books[0]?).map Book.status
      = some (if sampleBook.status = ReadingStatus.wantToRead then ReadingStatus.reading
              else sampleBook.status) :=
  ⟨rfl, rfl,
   C4_progress_status_transition "b1" "cfiX" 42 99 sampleLibrary 0 sampleBook rfl rfl⟩

/-- C7: `updateReadingProgress` rewrites only the targeted book's
`currentLocation`, `progress`, `lastOpened` and (want-to-read → reading)
`status`, and `updateReadingTime` only its `readingTime`; each leaves every
other book and every other state slice untouched — partial updates, not
record overwrites. -/
theorem C7_independent_partial_updates (id location : String) (progress seconds : ℚ)
    (now : ℤ) (s : LibraryState) (i : ℕ) (b : Book) (hb : s.books[i]? = some b) :
    (updateReadingProgress id location progress now s).bookmarks = s.bookmarks
  ∧ (updateReadingProgress id location progress now s).highlights = s.highlights
  ∧ (updateReadingProgress id location progress now s).collections = s.collections
  ∧ (updateReadingTime id seconds s).bookmarks = s.bookmarks
  ∧ (updateReadingTime id seconds s).highlights = s.highlights
  ∧ (updateReadingTime id seconds s).collections = s.collections
  ∧ (updateReadingProgress id location progress now s).books[i]?
      = some (if b.id = id then
                { b with currentLocation := some location, progress := progress,
                         lastOpened := some now,
                         status := if b.status = ReadingStatus.wantToRead
                                   then ReadingStatus.reading else b.status }
              else b)
  ∧ (updateReadingTime id seconds s).books[i]?
      = some (if b.id = id then { b with readingTime := b.readingTime + seconds }
              else b) := by
  refine ⟨rfl, rfl, rfl, rfl, rfl, rfl, ?_, ?_⟩ <;>
    simp [updateReadingProgress, updateReadingTime, List.getElem?_map, hb]

/-- Witness for C7 at the targeted book `b1` of the sample library. -/
theorem C7_independent_partial_updates_witness :
    sampleLibrary.books[0]? = some sampleBook ∧
    ((updateReadingProgress "b1" "cfiX" 42 99 sampleLibrary).bookmarks
        = sampleLibrary.bookmarks
    ∧ (updateReadingProgress "b1" "cfiX" 42 99 sampleLibrary).highlights
        = sampleLibrary.highlights
    ∧ (updateReadingProgress "b1" "cfiX" 42 99 sampleLibrary).collections
        = sampleLibrary.collections
    ∧ (updateReadingTime "b1" 7 sampleLibrary).bookmarks = sampleLibrary.bookmarks
    ∧ (updateReadingTime "b1" 7 sampleLibrary).highlights = sampleLibrary.highlights
    ∧ (updateReadingTime "b1" 7 sampleLibrary).collections = sampleLibrary.collections
    ∧ (updateReadingProgress "b1" "cfiX" 42 99 sampleLibrary).books[0]?
        = some (if sampleBook.id = "b1" then
                  { sampleBook with currentLocation := some "cfiX", progress := 42,
                                    lastOpened := some 99,
                                    status := if sampleBook.status = ReadingStatus.wantToRead
                                              then ReadingStatus.reading
                                              else sampleBook.status }
                else sampleBook)
    ∧ (updateReadingTime "b1" 7 sampleLibrary).books[0]?
        = some (if sampleBook.id = "b1" then
                  { sampleBook with readingTime := sampleBook.readingTime + 7 }
                else sampleBook)) :=
  ⟨rfl, C7_independent_partial_updates "b1" "cfiX" 42 7 99 sampleLibrary 0 sampleBook rfl⟩

/-- C10: `removeBook` leaves no dangling references — the removed book's
bookmarks and highlights are gone and its id is stripped from every
collection — while every other book, bookmark, highlight and collection
membership survives unchanged. -/
theorem C10_remove_book_no_dangling (id : String) (s : LibraryState) :
    (∀ bm, bm ∈ (removeBook id s).bookmarks ↔ bm ∈ s.bookmarks ∧ bm.bookId ≠ id)
  ∧ (∀ h, h ∈ (removeBook id s).highlights ↔ h ∈ s.highlights ∧ h.bookId ≠ id)
  ∧ (∀ b, b ∈ (removeBook id s).books ↔ b ∈ s.books ∧ b.id ≠ id)
  ∧ (∀ c ∈ (removeBook id s).collections, id ∉ c.bookIds)
  ∧ (∀ i : ℕ, ((removeBook id s).collections[i]?).map Collection.id
        = (s.collections[i]?).map Collection.id)
  ∧ (∀ i : ℕ, ((removeBook id s).collections[i]?).map Collection.name
        = (s.collections[i]?).map Collection.name)
  ∧ (∀ (i : ℕ) (j : String),
        ((removeBook id s).collections[i]?).map (fun c => decide (j ∈ c.bookIds))
          = (s.collections[i]?).map (fun c => decide (j ∈ c.bookIds ∧ j ≠ id))) := by
  refine ⟨?_, ?_, ?_, ?_, ?_, ?_, ?_⟩
  · intro bm; simp [removeBook, List.mem_filter, bne_iff_ne]
  · intro h; simp [removeBook, List.mem_filter, bne_iff_ne]
  · intro b; simp [removeBook, List.mem_filter, bne_iff_ne]
  · intro c hc
    simp only [removeBook, List.mem_map] at hc
    obtain ⟨c0, _, rfl⟩ := hc
    simp [List.mem_filter]
  · intro i
    cases h : s.collections[i]? <;> simp [removeBook, List.getElem?_map, h]
  · intro i
    cases h : s.collections[i]? <;> simp [removeBook, List.getElem?_map, h]
  · intro i j
    cases h : s.collections[i]? with
    | none => simp [removeBook, List.getElem?_map, h]
    | some c =>
      have hmem : (j ∈ c.bookIds.filter (fun bookId => bookId != id)) ↔
          (j ∈ c.bookIds ∧ j ≠ id) := by
        simp [List.mem_filter, bne_iff_ne]
      simp only [removeBook, List.getElem?_map, h, Option.map_some']
      exact congrArg some (decide_eq_decide.mpr hmem)

/-- C9: theme resolution is total — each of the four theme ids maps to its
fixed `{background, text, link}` triple, an unknown id falls back to the
light triple, and the `EpubRenderer` switch agrees with the
`theme.ts` lookup table on all of them. -/
theorem C9_theme_resolution_total (theme : String) (h : THEME_COLORS theme = none) :
    getThemeColors "light" = ⟨"#ffffff", "#1d1d1f", "#007aff"⟩
  ∧ getThemeColors "sepia" = ⟨"#f8f3e8", "#433422", "#b5651d"⟩
  ∧ getThemeColors "dark" = ⟨"#1c1c1e", "#f5f5f7", "#0a84ff"⟩
  ∧ getThemeColors "black" = ⟨"#000000", "#ffffff", "#0a84ff"⟩
  ∧ getThemeColors theme = ⟨"#ffffff", "#1d1d1f", "#007aff"⟩
  ∧ epubGetThemeColors "light" = getThemeColors "light"
  ∧ epubGetThemeColors "sepia" = getThemeColors "sepia"
  ∧ epubGetThemeColors "dark" = getThemeColors "dark"
  ∧ epubGetThemeColors "black" = getThemeColors "black"
  ∧ epubGetThemeColors theme = getThemeColors theme := by
  unfold THEME_COLORS at h
  split_ifs at h with h1 h2 h3 h4
  refine ⟨by decide, by decide, by decide, by decide, ?_, by decide, by decide,
          by decide, by decide, ?_⟩ <;>
    simp [getThemeColors, epubGetThemeColors, THEME_COLORS, h1, h2, h3, h4]

/-- Witness for C9 at the unknown theme id `"solarized"`. -/
theorem C9_theme_resolution_total_witness :
    THEME_COLORS "solarized" = none
  ∧ (getThemeColors "light" = ⟨"#ffffff", "#1d1d1f", "#007aff"⟩
  ∧ getThemeColors "sepia" = ⟨"#f8f3e8", "#433422", "#b5651d"⟩
  ∧ getThemeColors "dark" = ⟨"#1c1c1e", "#f5f5f7", "#0a84ff"⟩
  ∧ getThemeColors "black" = ⟨"#000000", "#ffffff", "#0a84ff"⟩
  ∧ getThemeColors "solarized" = ⟨"#ffffff", "#1d1d1f", "#007aff"⟩
  ∧ epubGetThemeColors "light" = getThemeColors "light"
  ∧ epubGetThemeColors "sepia" = getThemeColors "sepia"
  ∧ epubGetThemeColors "dark" = getThemeColors "dark"
  ∧ epubGetThemeColors "black" = getThemeColors "black"
  ∧ epubGetThemeColors "solarized" = getThemeColors "solarized") :=
  ⟨by decide, C9_theme_resolution_total "solarized" (by decide)⟩

/-- C8: `goToPercentage` clamps any incoming percentage to `[0, 100]`,
normalises it into `[0, 1]`, converts it through the Location Index's
`cfiFromPercentage` and delegates to the rendition's display operation. -/
theorem C8_go_to_percentage_clamps (cfiFromPercentage : ℚ → String) (percentage : ℚ) :
    goToPercentage true cfiFromPercentage percentage
      = NavAction.display (cfiFromPercentage (max 0 (min percentage 100) / 100))
  ∧ 0 ≤ max 0 (min percentage 100) / 100
  ∧ max 0 (min percentage 100) / 100 ≤ 1 := by
  refine ⟨rfl, ?_, ?_⟩
  · exact div_nonneg (le_max_left 0 _) (by norm_num)
  · rw [div_le_one (by norm_num : (0:ℚ) < 100)]
    exact max_le (by norm_num) (min_le_right _ _)

/-- C5: on a relocation with a ready index of `T ≥ 1` chunks and a
percentage `pct ∈ [0, 1]`, the page number the handler derives is exactly
`max 1 (round (pct * T))`, and it lies in `[1, T]`. -/
theorem C5_page_from_percentage (pct : ℚ) (T : ℕ) (hT : 1 ≤ T) (_h0 : 0 ≤ pct)
    (h1 : pct ≤ 1) (loc : RelocLocation) (bookId : String)
    (chapterOf : String → Option String) :
    (handleLocationChange (Except.ok T) (Except.ok (some pct)) loc bookId
        chapterOf).locPage = max 1 (jsRound (pct * T))
  ∧ 1 ≤ (handleLocationChange (Except.ok T) (Except.ok (some pct)) loc bookId
        chapterOf).locPage
  ∧ (handleLocationChange (Except.ok T) (Except.ok (some pct)) loc bookId
        chapterOf).locPage ≤ T := by
  have hpos : 0 < T := hT
  have hpage : (handleLocationChange (Except.ok T) (Except.ok (some pct)) loc bookId
      chapterOf).locPage = max 1 (jsRound (pct * T)) := by
    simp [handleLocationChange, hpos]
  have hjr : jsRound (pct * T) ≤ (T : ℤ) := by
    unfold jsRound
    have hmul : pct * (T : ℚ) ≤ (T : ℚ) := by
      calc pct * (T : ℚ) ≤ 1 * (T : ℚ) :=
            mul_le_mul_of_nonneg_right h1 (by positivity)
        _ = (T : ℚ) := one_mul _
    calc ⌊pct * (T : ℚ) + 1 / 2⌋ ≤ ⌊((T : ℤ) : ℚ) + 1 / 2⌋ :=
          Int.floor_le_floor (by push_cast; linarith)
      _ = (T : ℤ) + ⌊(1 / 2 : ℚ)⌋ := Int.floor_int_add _ _
      _ = (T : ℤ) := by norm_num
  refine ⟨hpage, ?_, ?_⟩
  · rw [hpage]; exact le_max_left 1 _
  · rw [hpage]; exact max_le (by exact_mod_cast hT) hjr

/-- Witness for C5 at `pct = 1/2`, `T = 10`. -/
theorem C5_page_from_percentage_witness :
    (1 ≤ 10) ∧ (0 ≤ (1 / 2 : ℚ)) ∧ ((1 / 2 : ℚ) ≤ 1) ∧
    ((handleLocationChange (Except.ok 10) (Except.ok (some (1 / 2))) sampleReloc "b1"
        noChapter).locPage = max 1 (jsRound ((1 / 2 : ℚ) * (10 : ℕ)))
    ∧ 1 ≤ (handleLocationChange (Except.ok 10) (Except.ok (some (1 / 2))) sampleReloc
        "b1" noChapter).locPage
    ∧ (handleLocationChange (Except.ok 10) (Except.ok (some (1 / 2))) sampleReloc
        "b1" noChapter).locPage ≤ (10 : ℕ)) :=
  ⟨by norm_num, by norm_num, by norm_num,
   C5_page_from_percentage (1 / 2) 10 (by norm_num) (by norm_num) (by norm_num)
     sampleReloc "b1" noChapter⟩

/-- C6: when the Location Index is unavailable — reported length `0`, the
length call itself throwing (index never built), or the percentage lookup
throwing — the relocation handler still returns a result (it cannot
propagate an error, being total), records the new CFI, and writes progress
`0` both to the reader session state and to the Book record. -/
theorem C6_relocation_degrades_silently (loc : RelocLocation) (bookId : String)
    (chapterOf : String → Option String) (pr : Except Unit (Option ℚ)) (n : ℕ) :
    ((handleLocationChange (Except.ok 0) pr loc bookId chapterOf).locCfi = loc.startCfi
      ∧ (handleLocationChange (Except.ok 0) pr loc bookId chapterOf).locProgress = 0
      ∧ (handleLocationChange (Except.ok 0) pr loc bookId chapterOf).bookProgressWrite
          = (bookId, loc.startCfi, 0))
  ∧ ((handleLocationChange (Except.error ()) pr loc bookId chapterOf).locCfi
          = loc.startCfi
      ∧ (handleLocationChange (Except.error ()) pr loc bookId chapterOf).locProgress = 0
      ∧ (handleLocationChange (Except.error ()) pr loc bookId chapterOf).bookProgressWrite
          = (bookId, loc.startCfi, 0))
  ∧ ((handleLocationChange (Except.ok n) (Except.error ()) loc bookId chapterOf).locCfi
          = loc.startCfi
      ∧ (handleLocationChange (Except.ok n) (Except.error ()) loc bookId
          chapterOf).locProgress = 0
      ∧ (handleLocationChange (Except.ok n) (Except.error ()) loc bookId
          chapterOf).bookProgressWrite = (bookId, loc.startCfi, 0)) := by
  refine ⟨⟨rfl, rfl, rfl⟩, ⟨rfl, rfl, rfl⟩, ?_, ?_, ?_⟩ <;>
    · by_cases hn : 0 < n <;> simp [handleLocationChange, hn]

/-- C2 counterexample: the claim quantifies over every session start time
(the spec's own example starts the simulated clock at `t = 0`), but
`endSession`'s JS falsiness test `if (!sessionStartTime) return 0` treats
the timestamp `0` like `null`: a session started at `t = 0` and ended 300
seconds later contributes `0`, not `300`, to the book's reading time. -/
theorem C2_counterexample :
    ((readerViewCleanup (some "b1") 300000 (startSession 0 initialReaderState)
        sampleLibrary).2.books[0]?).map Book.readingTime = some 0
  ∧ ((readerViewCleanup (some "b1") 300000 (startSession 0 initialReaderState)
        sampleLibrary).2.books[0]?).map Book.readingTime ≠ some 300 := by
  constructor
  · rfl
  · decide

/-- C2 (amended): provided the session's start timestamp `t` is nonzero
(`Date.now() = 0` is indistinguishable from "no session" to `endSession`'s
falsiness test) and the book id is nonempty (the cleanup guard
`if (bookId && duration > 0)`), starting a session at `t` and running the
`ReaderView` cleanup at `t + 1000·N` ms adds exactly `N` seconds to the
book's accumulated reading time — also when `N = 0`, where the addition is
skipped and the time is unchanged; and a cleanup with no session started
yields duration `0` and leaves the library state untouched. -/
theorem C2_session_time_accounting (t : ℤ) (N : ℕ) (ht : t ≠ 0) (bid : String)
    (hbid : bid ≠ "") (rs : ReaderState) (ls : LibraryState) (i : ℕ) (b : Book)
    (hb : ls.books[i]? = some b) (hid : b.id = bid) (t2 : ℤ) :
    (((readerViewCleanup (some bid) (t + 1000 * N) (startSession t rs) ls).2.books[i]?).map
        Book.readingTime = some (b.readingTime + N))
  ∧ (endSession t2 { rs with sessionStartTime := none }).2 = 0
  ∧ (readerViewCleanup (some bid) t2 { rs with sessionStartTime := none } ls).2 = ls := by
  have hdur : (endSession (t + 1000 * N) (startSession t rs))
      = ({ rs with sessionStartTime := none }, (N : ℤ)) := by
    simp only [endSession, startSession, if_neg ht]
    have harg : t + 1000 * (N : ℤ) - t = 1000 * N := by ring
    rw [harg, Int.mul_fdiv_cancel_left _ (by norm_num)]
  refine ⟨?_, rfl, ?_⟩
  · unfold readerViewCleanup
    rw [hdur]
    by_cases hN : 0 < N
    · have : 0 < (N : ℤ) := by exact_mod_cast hN
      simp [hbid, this, updateReadingTime, List.getElem?_map, hb, hid]
    · have hN0 : N = 0 := by omega
      subst hN0
      simp [hb]
  · unfold readerViewCleanup
    simp [endSession]

/-- Witness for C2 (amended): start at `t = 5` ms, end `300` s later; the
want-to-read sample book gains exactly `300` seconds. -/
theorem C2_session_time_accounting_witness :
    ((5 : ℤ) ≠ 0) ∧ ("b1" ≠ "") ∧ (sampleLibrary.books[0]? = some sampleBook)
  ∧ (sampleBook.id = "b1")
  ∧ ((((readerViewCleanup (some "b1") (5 + 1000 * 300)
          (startSession 5 initialReaderState) sampleLibrary).2.books[0]?).map
          Book.readingTime = some (sampleBook.readingTime + 300))
      ∧ (endSession 77 { initialReaderState with sessionStartTime := none }).2 = 0
      ∧ (readerViewCleanup (some "b1") 77
          { initialReaderState with sessionStartTime := none } sampleLibrary).2
          = sampleLibrary) :=
  ⟨by decide, by decide, rfl, rfl,
   C2_session_time_accounting 5 300 (by decide) "b1" (by decide) initialReaderState
     sampleLibrary 0 sampleBook rfl rfl 77⟩

/-- C3 counterexample: for the state whose `sessionStartTime` is the
literal timestamp `0`, a first `endSession` leaves the field at `some 0`
(the falsiness test short-circuits without clearing it), so a second
`endSession` does return `0` but the field is not `null` as the claim
states. -/
theorem C3_counterexample :
    (endSession 200000 (endSession 100000
        { initialReaderState with sessionStartTime := some 0 }).1).2 = 0
  ∧ (endSession 200000 (endSession 100000
        { initialReaderState with sessionStartTime := some 0 }).1).1.sessionStartTime
      ≠ none := by
  constructor
  · rfl
  · decide

/-- C3 (amended): a second `endSession` with no intervening `startSession`
always returns duration `0` and changes nothing, so a session's duration is
flushed at most once even under repeated teardown; and whenever the
recorded start timestamp is not the literal `0`, the first `endSession`
also leaves `sessionStartTime` null (a `some 0` start is treated as "no
session" and is left in place, with both calls returning `0`). -/
theorem C3_session_end_idempotent (rs : ReaderState) (t1 t2 : ℤ)
    (h : rs.sessionStartTime ≠ some 0) :
    (endSession t2 (endSession t1 rs).1).2 = 0
  ∧ (endSession t2 (endSession t1 rs).1).1 = (endSession t1 rs).1
  ∧ (endSession t1 rs).1.sessionStartTime = none
  ∧ (endSession t2 (endSession t1 rs).1).1.sessionStartTime = none := by
  cases hrs : rs.sessionStartTime with
  | none => simp [endSession, hrs]
  | some t =>
    have ht : t ≠ 0 := by
      intro e; exact h (by rw [hrs, e])
    simp [endSession, hrs, ht]

/-- Witness for C3 (amended) at a session started at `t = 5000` ms. -/
theorem C3_session_end_idempotent_witness :
    ({ initialReaderState with sessionStartTime := some 5000 }.sessionStartTime
        ≠ some 0)
  ∧ ((endSession 200000 (endSession 100000
        { initialReaderState with sessionStartTime := some 5000 }).1).2 = 0
    ∧ (endSession 200000 (endSession 100000
        { initialReaderState with sessionStartTime := some 5000 }).1).1
        = (endSession 100000
            { initialReaderState with sessionStartTime := some 5000 }).1
    ∧ (endSession 100000
        { initialReaderState with sessionStartTime := some 5000 }).1.sessionStartTime
        = none
    ∧ (endSession 200000 (endSession 100000
        { initialReaderState with sessionStartTime := some 5000 }).1).1.sessionStartTime
        = none) :=
  ⟨by decide,
   C3_session_end_idempotent { initialReaderState with sessionStartTime := some 5000 }
     100000 200000 (by decide)⟩

/-- C1 counterexample: the claim says every highlight operation of the
store preserves the at-most-one-per-start-address invariant, but
`updateHighlight` accepts a `Partial<Highlight>` that may rewrite
`startLocation`: moving `h2` onto `locA`, already occupied by `h1` in the
same book, yields two highlights with the same `(bookId, startLocation)`. -/
theorem C1_counterexample :
    highlightInv sampleLibrary.highlights
  ∧ ¬ highlightInv (updateHighlight "h2" { startLocation := some "locA" }
        sampleLibrary).highlights := by
  constructor <;> decide

/-- C1 (amended): the at-most-one-highlight-per-(bookId, startLocation)
invariant is preserved by `addHighlight`, `removeHighlight`,
`clearAllHighlights` and `removeBook`, and by `updateHighlight` whenever
the partial update does not rewrite `bookId` or `startLocation` (an update
that moves a highlight onto an occupied start address can violate it);
`addHighlight` at an occupied start address removes the prior highlight
there and leaves exactly one highlight at that address, carrying the newly
supplied color. -/
theorem C1_highlight_upsert (s : LibraryState) (hd : HighlightData) (newId : String)
    (now : ℤ) (hid rid bid : String) (u : HighlightUpdates)
    (hinv : highlightInv s.highlights) (hu1 : u.bookId = none)
    (hu2 : u.startLocation = none) :
    highlightInv ((addHighlight hd newId now s).1.highlights)
  ∧ (addHighlight hd newId now s).1.highlights.filter (sameStartAs hd)
      = [(addHighlight hd newId now s).2]
  ∧ (addHighlight hd newId now s).2.color = hd.color
  ∧ highlightInv ((removeHighlight rid s).highlights)
  ∧ highlightInv ((clearAllHighlights bid s).highlights)
  ∧ highlightInv ((removeBook bid s).highlights)
  ∧ highlightInv ((updateHighlight hid u s).highlights) := by
  have keyA : ∀ a ∈ s.highlights.filter
      (fun h => !((s.highlights.filter (sameStartAs hd)).any (fun e => e.id == h.id))),
      ¬(a.bookId = hd.bookId ∧ a.startLocation = hd.startLocation) := by
    intro a ha hpair
    rw [List.mem_filter] at ha
    obtain ⟨hmem, hkeep⟩ := ha
    have hin : a ∈ s.highlights.filter (sameStartAs hd) :=
      List.mem_filter.mpr ⟨hmem, by simp [sameStartAs, hpair.1, hpair.2]⟩
    have hany : (s.highlights.filter (sameStartAs hd)).any (fun e => e.id == a.id)
        = true :=
      List.any_eq_true.mpr ⟨a, hin, by simp⟩
    rw [hany] at hkeep
    simp at hkeep
  have hfilterPW : (s.highlights.filter
      (fun h => !((s.highlights.filter (sameStartAs hd)).any
        (fun e => e.id == h.id)))).Pairwise
      (fun h1 h2 => ¬(h1.bookId = h2.bookId ∧ h1.startLocation = h2.startLocation)) :=
    List.Pairwise.sublist (List.filter_sublist _) hinv
  refine ⟨?_, ?_, rfl, ?_, ?_, ?_, ?_⟩
  · show ((s.highlights.filter _) ++ [_]).Pairwise _
    rw [List.pairwise_append]
    refine ⟨hfilterPW, List.pairwise_singleton _ _, ?_⟩
    intro a ha b hb
    have hbeq : b = (addHighlight hd newId now s).2 := by simpa using hb
    subst hbeq
    intro hpair
    exact keyA a ha ⟨hpair.1, hpair.2⟩
  · show ((s.highlights.filter _) ++ [_]).filter (sameStartAs hd) = _
    rw [List.filter_append]
    have hnil : (s.highlights.filter
        (fun h => !((s.highlights.filter (sameStartAs hd)).any
          (fun e => e.id == h.id)))).filter (sameStartAs hd) = [] := by
      rw [List.filter_eq_nil_iff]
      intro a ha hss
      refine keyA a ha ?_
      simpa [sameStartAs] using hss
    rw [hnil]
    simp [sameStartAs, addHighlight]
  · exact List.Pairwise.sublist (List.filter_sublist _) hinv
  · exact List.Pairwise.sublist (List.filter_sublist _) hinv
  · exact List.Pairwise.sublist (List.filter_sublist _) hinv
  · have hpres : ∀ h : Highlight,
        (if h.id = hid then applyHighlightUpdates u h else h).bookId = h.bookId
      ∧ (if h.id = hid then applyHighlightUpdates u h else h).startLocation
          = h.startLocation := by
      intro h
      by_cases hh : h.id = hid <;> simp [hh, applyHighlightUpdates, hu1, hu2]
    show (s.highlights.map _).Pairwise _
    rw [List.pairwise_map]
    refine List.Pairwise.imp ?_ hinv
    intro a b hR hpair
    refine hR ?_
    rw [(hpres a).1, (hpres a).2, (hpres b).1, (hpres b).2] at hpair
    exact hpair

/-- Witness for C1 (amended): upserting at the occupied address `locA` of
`b1` in the sample library, plus the preservation conjuncts at concrete
arguments. -/
theorem C1_highlight_upsert_witness :
    highlightInv sampleLibrary.highlights
  ∧ emptyHighlightUpdates.bookId = none
  ∧ emptyHighlightUpdates.startLocation = none
  ∧ (highlightInv ((addHighlight sampleHighlightData "h9" 6 sampleLibrary).1.highlights)
    ∧ (addHighlight sampleHighlightData "h9" 6 sampleLibrary).1.highlights.filter
        (sameStartAs sampleHighlightData)
        = [(addHighlight sampleHighlightData "h9" 6 sampleLibrary).2]
    ∧ (addHighlight sampleHighlightData "h9" 6 sampleLibrary).2.color
        = sampleHighlightData.color
    ∧ highlightInv ((removeHighlight "h2" sampleLibrary).highlights)
    ∧ highlightInv ((clearAllHighlights "b2" sampleLibrary).highlights)
    ∧ highlightInv ((removeBook "b2" sampleLibrary).highlights)
    ∧ highlightInv ((updateHighlight "h1" emptyHighlightUpdates
        sampleLibrary).highlights)) :=
  ⟨by decide, rfl, rfl,
   C1_highlight_upsert sampleLibrary sampleHighlightData "h9" 6 "h1" "h2" "b2"
     emptyHighlightUpdates (by decide) rfl rfl⟩

end BookReader
